import Mathlib

/-!
Verification of the output-parsing core of `aiida_wannier90/postparsers.py`:
the line-scan routine `raw_wpout_parser` and the orchestrating method
`PostWannier90Parser.parse`.

The Python code is embedded shallowly:

* Python exceptions (`IndexError` from sequence indexing, `ValueError` from
  `int()` / `float()`) are modelled by the `PyRes.exn` constructor;
* the two `while` loops are given explicit fuel; `PyRes.spin` is the result
  of running out of fuel, and statements quantified over all fuel values
  express genuine non-termination of the Python loop;
* Python dictionaries with a fixed key set are modelled by a structure with
  `Option` fields (`none` = key absent);
* `float(tok)` stores floating-point data the claims never inspect, so the
  embedding keeps the accepted token itself, while reproducing faithfully
  *whether* `float(tok)` succeeds or raises `ValueError`.
-/

/-- Python exception kinds that the embedded code can raise. -/
inductive PyErr : Type
  | indexError
  | valueError
  deriving Repr, DecidableEq

/-- Result of running a piece of embedded Python code: a normal value, a
raised exception, or fuel exhaustion (`spin`, standing for a loop that has
not terminated within the allotted fuel). -/
inductive PyRes (α : Type) : Type
  | ok (a : α)
  | exn (e : PyErr)
  | spin
  deriving Repr, DecidableEq

/-- Sequencing of embedded Python steps: exceptions and non-termination
propagate. -/
def PyRes.bind {α β : Type} : PyRes α → (α → PyRes β) → PyRes β
  | .ok a, f => f a
  | .exn e, _ => .exn e
  | .spin, _ => .spin

/-- True when the computation produced a value (no exception, terminated). -/
def PyRes.isOk {α : Type} : PyRes α → Bool
  | .ok _ => true
  | _ => false

/-- Substring test on character lists: first argument occurs as a contiguous
block of the second.  This is Python's `needle in haystack` for strings. -/
def listPre : List Char → List Char → Bool
  | [], _ => true
  | _ :: _, [] => false
  | a :: as, b :: bs => a == b && listPre as bs

/-- Occurrence of `needle` at any position of `hay`. -/
def listOcc (needle : List Char) : List Char → Bool
  | [] => listPre needle []
  | c :: cs => listPre needle (c :: cs) || listOcc needle cs

/-- Python's `needle in hay` for strings (substring containment). -/
def pyIn (needle hay : String) : Bool :=
  listOcc needle.data hay.data

/-- Whitespace splitter accumulator: `cur` holds the reversed characters of
the token currently being read. -/
def wsSplitAux (cur : List Char) : List Char → List String
  | [] => if cur.isEmpty then [] else [⟨cur.reverse⟩]
  | c :: cs =>
    if c.isWhitespace then
      (if cur.isEmpty then [] else [⟨cur.reverse⟩]) ++ wsSplitAux [] cs
    else
      wsSplitAux (c :: cur) cs

/-- Python's `s.split()` with no argument: split on runs of whitespace and
drop empty tokens. -/
def pySplit (s : String) : List String :=
  wsSplitAux [] s.data

/-- Python's `s.strip()` on the character level (used by `int()`/`float()`,
which ignore surrounding whitespace). -/
def pyStrip (s : String) : List Char :=
  ((s.data.dropWhile Char.isWhitespace).reverse.dropWhile Char.isWhitespace).reverse

/-- Decimal digit test for ASCII characters. -/
def allDigits : List Char → Bool
  | [] => true
  | c :: cs => c.isDigit && allDigits cs

/-- Value of a list of decimal digits. -/
def digitsToNat (l : List Char) : Nat :=
  l.foldl (fun a c => a * 10 + (c.toNat - 48)) 0

/-- Python's `int(s)` on a string: strip whitespace, optional sign, then a
non-empty run of decimal digits; anything else (for example a float literal
such as "25.5") raises `ValueError`.  (Underscore digit grouping and
non-ASCII digits, never present in Wannier90 output, are not modelled.) -/
def pyInt (s : String) : PyRes Int :=
  match pyStrip s with
  | '+' :: r =>
    if !r.isEmpty && allDigits r then .ok (digitsToNat r : Int) else .exn .valueError
  | '-' :: r =>
    if !r.isEmpty && allDigits r then .ok (-(digitsToNat r : Int)) else .exn .valueError
  | r =>
    if !r.isEmpty && allDigits r then .ok (digitsToNat r : Int) else .exn .valueError

/-- Exponent-and-after part of a float literal: empty, or `e`/`E` followed by
an optionally signed non-empty digit run. -/
def expPartOk : List Char → Bool
  | [] => true
  | 'e' :: r =>
    (match r with
     | '+' :: r2 => !r2.isEmpty && allDigits r2
     | '-' :: r2 => !r2.isEmpty && allDigits r2
     | r2 => !r2.isEmpty && allDigits r2)
  | 'E' :: r =>
    (match r with
     | '+' :: r2 => !r2.isEmpty && allDigits r2
     | '-' :: r2 => !r2.isEmpty && allDigits r2
     | r2 => !r2.isEmpty && allDigits r2)
  | _ => false

/-- Mantissa-and-after part of a float literal: digits, optional decimal
point with further digits (at least one digit in total), optional exponent. -/
def floatBody (cs : List Char) : Bool :=
  let ds := cs.takeWhile Char.isDigit
  let rest := cs.drop ds.length
  match rest with
  | [] => !ds.isEmpty
  | '.' :: r2 =>
    let fs := r2.takeWhile Char.isDigit
    let r3 := r2.drop fs.length
    (!ds.isEmpty || !fs.isEmpty) && expPartOk r3
  | _ => !ds.isEmpty && expPartOk rest

/-- Python's `float(s)` reduced to its success/failure behaviour: `ok` when
`s` is a valid float literal, `ValueError` otherwise.  The numeric value is
not needed by any claim, so it is not computed; the accepted token itself is
what the embedding stores.  (The `inf`/`nan` spellings, never produced at
the parsed positions, are not modelled.) -/
def pyFloatChk (s : String) : PyRes Unit :=
  let body := match pyStrip s with
    | '+' :: r => r
    | '-' :: r => r
    | r => r
  if floatBody body then .ok () else .exn .valueError

/-- Python's `l[i]` for a non-negative index: `IndexError` when out of
range. -/
def pyGet {α : Type} (l : List α) (i : Nat) : PyRes α :=
  match l.get? i with
  | some x => .ok x
  | none => .exn .indexError

/-- Python's `l[-2]`: second-to-last element, `IndexError` when the list has
fewer than two elements. -/
def pyNeg2 {α : Type} (l : List α) : PyRes α :=
  match l.reverse with
  | _ :: x :: _ => .ok x
  | _ => .exn .indexError

/-- The dictionary built by `raw_wpout_parser`, with its fixed key set as
`Option` fields (`none` = key absent).  The three `dos_energy_*` fields hold
the token accepted by `float()` (see `pyFloatChk`). -/
structure WpOut : Type where
  warnings : List String := []
  number_wannier_functions : Option Int := none
  number_electrons_per_state : Option Int := none
  fermi_energy : Option Int := none
  length_units : Option String := none
  output_verbosity : Option Int := none
  dos_energy_min : Option String := none
  dos_energy_max : Option String := none
  dos_energy_step : Option String := none
  dos_kmesh : Option (List Int) := none
  deriving Repr, DecidableEq

/-- POSTW90 scan body, first branch: `if 'Number of Wannier Functions' in
line: out['number_wannier_functions'] = int(line.split()[-2])`. -/
def postNwf (out : WpOut) (line : String) : PyRes WpOut :=
  if pyIn "Number of Wannier Functions" line then
    PyRes.bind (pyNeg2 (pySplit line)) (fun t =>
    PyRes.bind (pyInt t) (fun v =>
    .ok { out with number_wannier_functions := some v }))
  else .ok out

/-- POSTW90 scan body, second branch: `Number of electrons per state`. -/
def postNeps (out : WpOut) (line : String) : PyRes WpOut :=
  if pyIn "Number of electrons per state" line then
    PyRes.bind (pyNeg2 (pySplit line)) (fun t =>
    PyRes.bind (pyInt t) (fun v =>
    .ok { out with number_electrons_per_state := some v }))
  else .ok out

/-- POSTW90 scan body, third branch: `if 'Fermi energy (eV)' in line:
out['fermi_energy'] = int(line.split()[-2])`. -/
def postFermi (out : WpOut) (line : String) : PyRes WpOut :=
  if pyIn "Fermi energy (eV)" line then
    PyRes.bind (pyNeg2 (pySplit line)) (fun t =>
    PyRes.bind (pyInt t) (fun v =>
    .ok { out with fermi_energy := some v }))
  else .ok out

/-- POSTW90 scan body, fourth branch: `Length Unit`, with the units warning
appended when the extracted token differs from "Ang". -/
def postLen (out : WpOut) (line : String) : PyRes WpOut :=
  if pyIn "Length Unit" line then
    PyRes.bind (pyNeg2 (pySplit line)) (fun t =>
    .ok (if t ≠ "Ang" then
           { out with length_units := some t,
                      warnings := out.warnings ++ ["Units not Ang, be sure this is OK!"] }
         else { out with length_units := some t }))
  else .ok out

/-- POSTW90 scan body, fifth branch: `Output verbosity (1=low, 5=high)`,
with the verbosity warning appended when the value differs from 1. -/
def postVerb (out : WpOut) (line : String) : PyRes WpOut :=
  if pyIn "Output verbosity (1=low, 5=high)" line then
    PyRes.bind (pyNeg2 (pySplit line)) (fun t =>
    PyRes.bind (pyInt t) (fun v =>
    .ok (if v ≠ 1 then
           { out with output_verbosity := some v,
                      warnings := out.warnings ++
                        ["Parsing is only supported directly supported if output verbosity is set to 1"] }
         else { out with output_verbosity := some v })))
  else .ok out

/-- One execution of the POSTW90 `while` body's five `if` blocks on the
current line (the body first re-reads `line = wann_out_file[i]`; that
re-read is performed by `postLoop`). -/
def postStep (out : WpOut) (line : String) : PyRes WpOut :=
  PyRes.bind (postNwf out line) (fun o1 =>
  PyRes.bind (postNeps o1 line) (fun o2 =>
  PyRes.bind (postFermi o2 line) (fun o3 =>
  PyRes.bind (postLen o3 line) (fun o4 =>
  postVerb o4 line))))

/-- The POSTW90 section loop, exactly as in the source: `while '-----' not
in line: line = wann_out_file[i]; <five if blocks>`.  The index `i` is
*never* incremented inside this loop (unlike the DOS loop below), so the
loop re-reads the same line forever unless the first inspected line already
contains the dash marker.  Fuel counts condition checks; exhaustion yields
`spin`.  Returns the loop-exit values of `(out, i, line)`. -/
def postLoop (file : List String) (i : Nat) :
    String → WpOut → Nat → PyRes (WpOut × Nat × String)
  | _, _, 0 => .spin
  | line, out, fuel + 1 =>
    if pyIn "-----" line then .ok (out, i, line)
    else
      match pyGet file i with
      | .exn e => .exn e
      | .spin => .spin
      | .ok line2 =>
        match postStep out line2 with
        | .exn e => .exn e
        | .spin => .spin
        | .ok out2 => postLoop file i line2 out2 fuel

/-- The DOS loop's condition value: the Python variable `line` is a string,
except after the `Grid size` branch reassigns it to a *list* of tokens, in
which case `'-----' not in line` becomes list membership. -/
def dashCond : String ⊕ List String → Bool
  | .inl s => pyIn "-----" s
  | .inr l => l.contains "-----"

/-- DOS scan body, first branch: `Minimum energy range for DOS plot` →
`float(line.split()[-2])` stored under `dos_energy_min`. -/
def dosMin (out : WpOut) (line : String) : PyRes WpOut :=
  if pyIn "Minimum energy range for DOS plot" line then
    PyRes.bind (pyNeg2 (pySplit line)) (fun t =>
    PyRes.bind (pyFloatChk t) (fun _ =>
    .ok { out with dos_energy_min := some t }))
  else .ok out

/-- DOS scan body, second branch: `Maximum energy range for DOS plot`. -/
def dosMax (out : WpOut) (line : String) : PyRes WpOut :=
  if pyIn "Maximum energy range for DOS plot" line then
    PyRes.bind (pyNeg2 (pySplit line)) (fun t =>
    PyRes.bind (pyFloatChk t) (fun _ =>
    .ok { out with dos_energy_max := some t }))
  else .ok out

/-- DOS scan body, third branch: `Energy step for DOS plot`. -/
def dosEstep (out : WpOut) (line : String) : PyRes WpOut :=
  if pyIn "Energy step for DOS plot" line then
    PyRes.bind (pyNeg2 (pySplit line)) (fun t =>
    PyRes.bind (pyFloatChk t) (fun _ =>
    .ok { out with dos_energy_step := some t }))
  else .ok out

/-- DOS scan body, fourth branch: `Grid size` → `line = line.split()[4:-1]`
(reassigning the Python variable `line` to a token list) followed by
`out['dos_kmesh'] = [int(line[0]), int(line[2]), int(line[4])]`, evaluated
left to right.  Returns the updated dictionary together with the new value
of `line` (a list after this branch, the untouched string otherwise). -/
def dosGrid (out : WpOut) (line : String) :
    PyRes (WpOut × (String ⊕ List String)) :=
  if pyIn "Grid size" line then
    let sl := ((pySplit line).drop 4).dropLast
    PyRes.bind (pyGet sl 0) (fun t0 =>
    PyRes.bind (pyInt t0) (fun v0 =>
    PyRes.bind (pyGet sl 2) (fun t2 =>
    PyRes.bind (pyInt t2) (fun v2 =>
    PyRes.bind (pyGet sl 4) (fun t4 =>
    PyRes.bind (pyInt t4) (fun v4 =>
    .ok ({ out with dos_kmesh := some [v0, v2, v4] }, Sum.inr sl)))))))
  else .ok (out, Sum.inl line)

/-- One execution of the DOS `while` body's four `if` blocks on the current
line (after the body's re-read `line = wann_out_file[i]`). -/
def dosStep (out : WpOut) (line : String) :
    PyRes (WpOut × (String ⊕ List String)) :=
  PyRes.bind (dosMin out line) (fun o1 =>
  PyRes.bind (dosMax o1 line) (fun o2 =>
  PyRes.bind (dosEstep o2 line) (fun o3 =>
  dosGrid o3 line)))

/-- The DOS section loop, exactly as in the source: `while '-----' not in
line: line = wann_out_file[i]; <four if blocks>; i += 1`.  Here `i` *is*
incremented each iteration.  Fuel counts condition checks.  Returns the
loop-exit values of `(out, i, line)`. -/
def dosLoop (file : List String) :
    Nat → (String ⊕ List String) → WpOut → Nat →
    PyRes (WpOut × Nat × (String ⊕ List String))
  | _, _, _, 0 => .spin
  | i, lv, out, fuel + 1 =>
    if dashCond lv then .ok (out, i, lv)
    else
      match pyGet file i with
      | .exn e => .exn e
      | .spin => .spin
      | .ok line =>
        match dosStep out line with
        | .exn e => .exn e
        | .spin => .spin
        | .ok (out2, lv2) => dosLoop file (i + 1) lv2 out2 fuel

/-- The unconditional per-line warning collection: `if 'Warning' in line:
out['warnings'].append(line)`. -/
def warnCheck (out : WpOut) (line : String) : WpOut :=
  if pyIn "Warning" line then { out with warnings := out.warnings ++ [line] }
  else out

/-- One iteration of the outer `for i in range(len(wann_out_file))` loop:
read the line, collect warnings, run the POSTW90 block when the line
contains "POSTW90" (entering with `i += 1; line = wann_out_file[i]`), then
run the DOS block when the *current* value of `line` — possibly updated by
the POSTW90 block — contains "DOS" (again entering with `i += 1; line =
wann_out_file[i]`).  Reassignments of the Python locals `i` and `line` do
not affect subsequent outer iterations (`range` semantics). -/
def outerStep (file : List String) (fuel : Nat) (out : WpOut) (i : Nat) :
    PyRes WpOut :=
  match pyGet file i with
  | .exn e => .exn e
  | .spin => .spin
  | .ok line =>
    match (if pyIn "POSTW90" line then
             match pyGet file (i + 1) with
             | .exn e => .exn e
             | .spin => .spin
             | .ok line2 => postLoop file (i + 1) line2 (warnCheck out line) fuel
           else .ok (warnCheck out line, i, line) :
           PyRes (WpOut × Nat × String)) with
    | .exn e => .exn e
    | .spin => .spin
    | .ok (out2, j, line3) =>
      if pyIn "DOS" line3 then
        match pyGet file (j + 1) with
        | .exn e => .exn e
        | .spin => .spin
        | .ok line4 =>
          match dosLoop file (j + 1) (Sum.inl line4) out2 fuel with
          | .exn e => .exn e
          | .spin => .spin
          | .ok (out3, _, _) => .ok out3
      else .ok out2

/-- The outer `for` loop over the (fixed) list of line indices. -/
def rawMain (file : List String) (fuel : Nat) :
    List Nat → WpOut → PyRes WpOut
  | [], out => .ok out
  | i :: rest, out =>
    match outerStep file fuel out i with
    | .ok out2 => rawMain file fuel rest out2
    | .exn e => .exn e
    | .spin => .spin

/-- Embedding of `raw_wpout_parser(wann_out_file)`: start from `{'warnings':
[]}` and run the outer loop over `range(len(wann_out_file))`.  `fuel` bounds
the two inner `while` loops (see `PyRes.spin`). -/
def rawWpoutParse (wann_out_file : List String) (fuel : Nat) : PyRes WpOut :=
  rawMain wann_out_file fuel (List.range wann_out_file.length) { warnings := [] }

/-- The exit codes `PostWannier90Parser.parse` can return (the spec calls
these `ErrorFileFound`, `StdoutMissing` and the exiting-message error;
`ERROR_NO_RETRIEVED_FOLDER` cannot arise in the embedding because the
retrieved file set is always a given value). -/
inductive ExitErr : Type
  | werrFilePresent
  | outputStdoutMissing
  | exitingMessageInStdout
  deriving Repr, DecidableEq

/-- A result object published through `self.out`: either the
`output_parameters` dictionary, or the `output_dos` object built by
`dos_parser`.  The latter is numpy/float plumbing no claim inspects, so the
embedding records the data file's lines it was built from. -/
inductive OutputVal : Type
  | params (d : WpOut)
  | dosData (lines : List String)
  deriving Repr, DecidableEq

/-- How a `parse` invocation ends: a normal return (with `None` or an exit
code), an escaped Python exception, or a hang inside `raw_wpout_parser`. -/
inductive POutcome : Type
  | finished (code : Option ExitErr)
  | raised (e : PyErr)
  | hung
  deriving Repr, DecidableEq

/-- Observable effect of one `PostWannier90Parser.parse` invocation: the
result objects published via `self.out`, in publication order, and how the
call ended.  Outputs published before an exception/hang are retained. -/
structure WPResult : Type where
  published : List (String × OutputVal)
  outcome : POutcome
  deriving Repr, DecidableEq

/-- Contents of the first retrieved file with the given name (the retrieved
folder maps names to line lists); `none` models `OSError` on `open`. -/
def lookupFile (retrieved : List (String × List String)) (name : String) :
    Option (List String) :=
  match retrieved.find? (fun p => p.fst == name) with
  | some p => some p.snd
  | none => none

/-- The DOS branch of `parse`: when the calculation has a `dos` input and
`<seed>-dos.dat` was retrieved, `dos_parser` runs and `output_dos` is
published; a missing input (`KeyError`) or missing file (`IOError`) is
silently skipped. -/
def dosOutputs (seed : String) (hasDosInput : Bool)
    (retrieved : List (String × List String)) : List (String × OutputVal) :=
  if hasDosInput then
    match lookupFile retrieved (seed ++ "-dos.dat") with
    | some d => [("output_dos", OutputVal.dosData d)]
    | none => []
  else []

/-- Embedding of `PostWannier90Parser.parse`, with the AiiDA plumbing made
explicit: `seed` is the `seedname` option, `hasDosInput` whether
`self.node.inputs.dos` exists, `retrieved` the retrieved folder, `fuel` the
bound for `raw_wpout_parser`'s loops.  Steps, in source order: the
`<seed>.werr` check (before any attempt to open stdout), opening
`<seed>.wpout` (on failure return the missing-stdout code), the
"Exiting......" scan, the DOS branch, the `raw_wpout_parser` call and the
publication of `output_parameters`, then the final return value. -/
def wannierParse (seed : String) (hasDosInput : Bool)
    (retrieved : List (String × List String)) (fuel : Nat) : WPResult :=
  let error_file_name := seed ++ ".werr"
  let output_file_name := seed ++ ".wpout"
  if (retrieved.map Prod.fst).contains error_file_name then
    ⟨[], .finished (some .werrFilePresent)⟩
  else
    match lookupFile retrieved output_file_name with
    | none => ⟨[], .finished (some .outputStdoutMissing)⟩
    | some out_file =>
      let exiting_in_stdout := out_file.any (fun l => pyIn "Exiting......" l)
      let douts := dosOutputs seed hasDosInput retrieved
      match rawWpoutParse out_file fuel with
      | .exn e => ⟨douts, .raised e⟩
      | .spin => ⟨douts, .hung⟩
      | .ok m =>
        ⟨douts ++ [("output_parameters", OutputVal.params m)],
         .finished (if exiting_in_stdout then some .exitingMessageInStdout else none)⟩

theorem PyRes.bind_eq_ok {α β : Type} {x : PyRes α} {f : α → PyRes β} {b : β}
    (h : PyRes.bind x f = .ok b) : ∃ a, x = .ok a ∧ f a = .ok b := by
  cases x with
  | ok a => exact ⟨a, rfl, h⟩
  | exn e => simp [PyRes.bind] at h
  | spin => simp [PyRes.bind] at h

theorem pyGet_lt {α : Type} (l : List α) (i : Nat) (h : i < l.length) :
    pyGet l i = PyRes.ok (l.get ⟨i, h⟩) := by
  simp [pyGet, List.get?_eq_get h, List.getElem?_eq_getElem h]

theorem pyGet_mem {α : Type} {l : List α} {i : Nat} {x : α}
    (h : pyGet l i = PyRes.ok x) : x ∈ l := by
  unfold pyGet at h
  cases hg : l.get? i with
  | none => rw [hg] at h; exact absurd h (by simp)
  | some y =>
    rw [hg] at h
    cases h
    exact List.get?_mem hg

theorem postLoop_zero (file : List String) (i : Nat) (line : String)
    (out : WpOut) : postLoop file i line out 0 = PyRes.spin := rfl

theorem postLoop_exit (file : List String) (i : Nat) (line : String)
    (out : WpOut) (fuel : Nat) (hd : pyIn "-----" line = true) :
    postLoop file i line out (fuel + 1) = PyRes.ok (out, i, line) := by
  simp [postLoop, hd]

theorem postLoop_no_exit (file : List String) (i : Nat) (line : String)
    (hd : pyIn "-----" line = false) (hg : pyGet file i = PyRes.ok line) :
    ∀ fuel out r, postLoop file i line out fuel ≠ PyRes.ok r := by
  intro fuel
  induction fuel with
  | zero => intro out r h; simp [postLoop] at h
  | succ n ih =>
    intro out r h
    rw [postLoop, hd] at h
    simp only [Bool.false_eq_true, if_false, hg] at h
    cases hs : postStep out line with
    | ok out2 => rw [hs] at h; exact ih out2 r h
    | exn e => rw [hs] at h; simp at h
    | spin => rw [hs] at h; simp at h

theorem postLoop_spin (file : List String) (i : Nat) (line : String)
    (hd : pyIn "-----" line = false) (hg : pyGet file i = PyRes.ok line)
    (hs : ∀ o : WpOut, ∃ o2, postStep o line = PyRes.ok o2) :
    ∀ fuel out, postLoop file i line out fuel = PyRes.spin := by
  intro fuel
  induction fuel with
  | zero => intro out; rfl
  | succ n ih =>
    intro out
    rw [postLoop, hd]
    simp only [Bool.false_eq_true, if_false, hg]
    obtain ⟨o2, ho2⟩ := hs out
    rw [ho2]
    exact ih o2

theorem postLoop_ok_out (file : List String) (i : Nat) (line : String)
    (out : WpOut) (fuel : Nat) (r : WpOut × Nat × String)
    (hg : pyGet file i = PyRes.ok line)
    (h : postLoop file i line out fuel = PyRes.ok r) : r.1 = out := by
  cases hd : pyIn "-----" line with
  | false => exact absurd h (postLoop_no_exit file i line hd hg fuel out r)
  | true =>
    cases fuel with
    | zero => simp [postLoop] at h
    | succ n =>
      rw [postLoop_exit file i line out n hd] at h
      cases h
      rfl

theorem dosMin_warn {out : WpOut} {line : String} {o : WpOut}
    (h : dosMin out line = PyRes.ok o) : o.warnings = out.warnings := by
  unfold dosMin at h
  split at h
  · obtain ⟨t, _, h2⟩ := PyRes.bind_eq_ok h
    obtain ⟨u, _, h3⟩ := PyRes.bind_eq_ok h2
    cases h3
    rfl
  · cases h
    rfl

theorem dosMax_warn {out : WpOut} {line : String} {o : WpOut}
    (h : dosMax out line = PyRes.ok o) : o.warnings = out.warnings := by
  unfold dosMax at h
  split at h
  · obtain ⟨t, _, h2⟩ := PyRes.bind_eq_ok h
    obtain ⟨u, _, h3⟩ := PyRes.bind_eq_ok h2
    cases h3
    rfl
  · cases h
    rfl

theorem dosEstep_warn {out : WpOut} {line : String} {o : WpOut}
    (h : dosEstep out line = PyRes.ok o) : o.warnings = out.warnings := by
  unfold dosEstep at h
  split at h
  · obtain ⟨t, _, h2⟩ := PyRes.bind_eq_ok h
    obtain ⟨u, _, h3⟩ := PyRes.bind_eq_ok h2
    cases h3
    rfl
  · cases h
    rfl

theorem dosGrid_warn {out : WpOut} {line : String}
    {r : WpOut × (String ⊕ List String)}
    (h : dosGrid out line = PyRes.ok r) : r.1.warnings = out.warnings := by
  unfold dosGrid at h
  split at h
  · obtain ⟨t0, _, h2⟩ := PyRes.bind_eq_ok h
    obtain ⟨v0, _, h3⟩ := PyRes.bind_eq_ok h2
    obtain ⟨t2, _, h4⟩ := PyRes.bind_eq_ok h3
    obtain ⟨v2, _, h5⟩ := PyRes.bind_eq_ok h4
    obtain ⟨t4, _, h6⟩ := PyRes.bind_eq_ok h5
    obtain ⟨v4, _, h7⟩ := PyRes.bind_eq_ok h6
    cases h7
    rfl
  · cases h
    rfl

theorem dosStep_warn {out : WpOut} {line : String}
    {r : WpOut × (String ⊕ List String)}
    (h : dosStep out line = PyRes.ok r) : r.1.warnings = out.warnings := by
  unfold dosStep at h
  obtain ⟨o1, h1, h2⟩ := PyRes.bind_eq_ok h
  obtain ⟨o2, h3, h4⟩ := PyRes.bind_eq_ok h2
  obtain ⟨o3, h5, h6⟩ := PyRes.bind_eq_ok h4
  calc r.1.warnings = o3.warnings := dosGrid_warn h6
    _ = o2.warnings := dosEstep_warn h5
    _ = o1.warnings := dosMax_warn h3
    _ = out.warnings := dosMin_warn h1

theorem dosLoop_warn (file : List String) :
    ∀ (fuel i : Nat) (lv : String ⊕ List String) (out : WpOut)
      (r : WpOut × Nat × (String ⊕ List String)),
      dosLoop file i lv out fuel = PyRes.ok r → r.1.warnings = out.warnings := by
  intro fuel
  induction fuel with
  | zero => intro i lv out r h; simp [dosLoop] at h
  | succ n ih =>
    intro i lv out r h
    rw [dosLoop] at h
    split at h
    · cases h
      rfl
    · cases hg : pyGet file i with
      | exn e => rw [hg] at h; simp at h
      | spin => rw [hg] at h; simp at h
      | ok line =>
        simp only [hg] at h
        cases hs : dosStep out line with
        | exn e => rw [hs] at h; simp at h
        | spin => rw [hs] at h; simp at h
        | ok p =>
          rw [hs] at h
          calc r.1.warnings = p.1.warnings := ih (i + 1) p.2 p.1 r h
            _ = out.warnings := dosStep_warn hs

theorem outerStep_warn (file : List String) (fuel : Nat) (out : WpOut) (i : Nat)
    (hw : ∀ l ∈ file, pyIn "Warning" l = false)
    {out2 : WpOut} (h : outerStep file fuel out i = PyRes.ok out2) :
    out2.warnings = out.warnings := by
  unfold outerStep at h
  cases hg : pyGet file i with
  | exn e => simp [hg] at h
  | spin => simp [hg] at h
  | ok line =>
    simp only [hg] at h
    have hwc : warnCheck out line = out := by
      unfold warnCheck
      rw [hw line (pyGet_mem hg)]
      simp
    rw [hwc] at h
    cases hp : pyIn "POSTW90" line with
    | false =>
      simp only [hp, Bool.false_eq_true, if_false] at h
      cases hd : pyIn "DOS" line with
      | false =>
        simp only [hd, Bool.false_eq_true, if_false] at h
        cases h
        rfl
      | true =>
        simp only [hd, if_true] at h
        cases hg2 : pyGet file (i + 1) with
        | exn e => simp [hg2] at h
        | spin => simp [hg2] at h
        | ok line4 =>
          simp only [hg2] at h
          cases hdl : dosLoop file (i + 1) (Sum.inl line4) out fuel with
          | exn e => simp [hdl] at h
          | spin => simp [hdl] at h
          | ok trip =>
            simp only [hdl] at h
            cases h
            exact dosLoop_warn file fuel (i + 1) (Sum.inl line4) out trip hdl
    | true =>
      simp only [hp, if_true] at h
      cases hg2 : pyGet file (i + 1) with
      | exn e => simp [hg2] at h
      | spin => simp [hg2] at h
      | ok line2 =>
        simp only [hg2] at h
        cases hpl : postLoop file (i + 1) line2 out fuel with
        | exn e => simp [hpl] at h
        | spin => simp [hpl] at h
        | ok trip =>
          simp only [hpl] at h
          have htrip : trip.1 = out :=
            postLoop_ok_out file (i + 1) line2 out fuel trip hg2 hpl
          cases hd : pyIn "DOS" trip.2.2 with
          | false =>
            rw [hd] at h
            simp only [Bool.false_eq_true, if_false] at h
            cases h
            rw [htrip]
          | true =>
            rw [hd] at h
            simp only [if_true] at h
            cases hg3 : pyGet file (trip.2.1 + 1) with
            | exn e => simp [hg3] at h
            | spin => simp [hg3] at h
            | ok line4 =>
              simp only [hg3] at h
              cases hdl : dosLoop file (trip.2.1 + 1) (Sum.inl line4) trip.1 fuel with
              | exn e => simp [hdl] at h
              | spin => simp [hdl] at h
              | ok trip2 =>
                simp only [hdl] at h
                cases h
                calc trip2.1.warnings
                    = trip.1.warnings :=
                      dosLoop_warn file fuel (trip.2.1 + 1) (Sum.inl line4) trip.1 trip2 hdl
                  _ = out.warnings := by rw [htrip]

theorem rawMain_warn (file : List String) (fuel : Nat)
    (hw : ∀ l ∈ file, pyIn "Warning" l = false) :
    ∀ (idxs : List Nat) (out m : WpOut),
      rawMain file fuel idxs out = PyRes.ok m → m.warnings = out.warnings := by
  intro idxs
  induction idxs with
  | nil =>
    intro out m h
    rw [rawMain] at h
    cases h
    rfl
  | cons i rest ih =>
    intro out m h
    rw [rawMain] at h
    cases ho : outerStep file fuel out i with
    | ok out2 =>
      simp only [ho] at h
      calc m.warnings = out2.warnings := ih out2 m h
        _ = out.warnings := outerStep_warn file fuel out i hw ho
    | exn e => simp [ho] at h
    | spin => simp [ho] at h

theorem rawMain_safe (file : List String) (fuel : Nat)
    (hnm : ∀ l ∈ file, pyIn "POSTW90" l = false ∧ pyIn "DOS" l = false) :
    ∀ (idxs : List Nat) (out : WpOut), (∀ j ∈ idxs, j < file.length) →
      (rawMain file fuel idxs out).isOk = true := by
  intro idxs
  induction idxs with
  | nil => intro out _; rfl
  | cons i rest ih =>
    intro out hb
    have hi : i < file.length := hb i (List.mem_cons_self i rest)
    have hline := pyGet_lt file i hi
    obtain ⟨hp, hd⟩ := hnm (file.get ⟨i, hi⟩) (List.get_mem file i hi)
    have ho : outerStep file fuel out i =
        PyRes.ok (warnCheck out (file.get ⟨i, hi⟩)) := by
      unfold outerStep
      rw [hline]
      simp only [hp, hd, Bool.false_eq_true, if_false]
    rw [rawMain]
    simp only [ho]
    exact ih (warnCheck out (file.get ⟨i, hi⟩))
      (fun j hj => hb j (List.mem_cons_of_mem i hj))

theorem dosLoop_succ (file : List String) (i : Nat) (lv : String ⊕ List String)
    (out : WpOut) (n : Nat) :
    dosLoop file i lv out (n + 1) =
      (if dashCond lv then PyRes.ok (out, i, lv)
       else
         match pyGet file i with
         | .exn e => .exn e
         | .spin => .spin
         | .ok line =>
           match dosStep out line with
           | .exn e => .exn e
           | .spin => .spin
           | .ok (out2, lv2) => dosLoop file (i + 1) lv2 out2 n) := rfl

theorem postLoop_succ (file : List String) (i : Nat) (line : String)
    (out : WpOut) (n : Nat) :
    postLoop file i line out (n + 1) =
      (if pyIn "-----" line then PyRes.ok (out, i, line)
       else
         match pyGet file i with
         | .exn e => .exn e
         | .spin => .spin
         | .ok line2 =>
           match postStep out line2 with
           | .exn e => .exn e
           | .spin => .spin
           | .ok out2 => postLoop file i line2 out2 n) := rfl

theorem rawParse3_spin (mid : String)
    (hdash : pyIn "-----" mid = false)
    (hok : ∀ o : WpOut, ∃ o2, postStep o mid = PyRes.ok o2) :
    ∀ fuel, rawWpoutParse ["POSTW90", mid, "-----"] fuel = PyRes.spin := by
  intro fuel
  have hget : pyGet ["POSTW90", mid, "-----"] 1 = PyRes.ok mid := rfl
  have hspin := postLoop_spin ["POSTW90", mid, "-----"] 1 mid hdash hget hok fuel
  show rawMain ["POSTW90", mid, "-----"] fuel (List.range 3) { warnings := [] } =
    PyRes.spin
  rw [show List.range 3 = [0, 1, 2] from rfl, rawMain]
  have ho : outerStep ["POSTW90", mid, "-----"] fuel { warnings := [] } 0 =
      PyRes.spin := by
    unfold outerStep
    simp only [show pyGet ["POSTW90", mid, "-----"] 0 = PyRes.ok "POSTW90" from rfl]
    simp only [show pyIn "POSTW90" "POSTW90" = true from rfl, if_true]
    simp only [hget]
    rw [hspin (warnCheck { warnings := [] } "POSTW90")]
  simp only [ho]

/-- C1 (amended).  The original claim — `raw_wpout_parser` returns a mapping
on *every* line sequence, malformed ones included — fails: a truncated
section marker raises `IndexError`, and a POSTW90 marker whose next line has
no five-dash run makes the scan loop forever.  What does hold: (1) on every
input in which no line contains "POSTW90" or "DOS" the function returns a
mapping; (2) on `["POSTW90"]` it raises `IndexError` for every loop fuel;
(3) on `["POSTW90", "x", "-----"]` it never terminates (spins for every
fuel). -/
theorem C1_no_marker_safe_amended :
    (∀ (lines : List String) (fuel : Nat),
       (∀ l ∈ lines, pyIn "POSTW90" l = false ∧ pyIn "DOS" l = false) →
       (rawWpoutParse lines fuel).isOk = true)
    ∧ (∀ fuel, rawWpoutParse ["POSTW90"] fuel = PyRes.exn PyErr.indexError)
    ∧ (∀ fuel, rawWpoutParse ["POSTW90", "x", "-----"] fuel = PyRes.spin) := by
  refine ⟨?_, ?_, ?_⟩
  · intro lines fuel h
    exact rawMain_safe lines fuel h (List.range lines.length) { warnings := [] }
      (fun j hj => List.mem_range.mp hj)
  · intro fuel
    rfl
  · intro fuel
    exact rawParse3_spin "x" rfl (fun o => ⟨o, rfl⟩) fuel

/-- C1 counterexample to the claim as stated: on the (truncated, malformed)
input `["POSTW90"]` the parser does not return a mapping — it raises
`IndexError` reading the line after the marker. -/
theorem C1_counterexample :
    rawWpoutParse ["POSTW90"] 100 = PyRes.exn PyErr.indexError := rfl

/-- C1 witness: the amended theorem applied at the concrete no-marker input
`["hello"]` with fuel 3, and at fuel 7 for the `IndexError` conjunct. -/
theorem C1_witness :
    (rawWpoutParse ["hello"] 3).isOk = true ∧
    rawWpoutParse ["POSTW90"] 7 = PyRes.exn PyErr.indexError :=
  ⟨C1_no_marker_safe_amended.1 ["hello"] 3 (by decide),
   C1_no_marker_safe_amended.2.1 7⟩

/-- C2.  The claim says the POSTW90 section scan advances one line per
iteration and terminates as soon as a later line contains five dashes.  The
code's POSTW90 `while` loop body never increments `i` (the DOS loop, of
identical intended structure, does), so on `["POSTW90", "hello", "-----"]`
— where the claim promises termination at the dash line — the scan re-reads
line 1 forever: the parse spins for every fuel bound. -/
theorem C2_postw90_scan_never_advances :
    ∀ fuel, rawWpoutParse ["POSTW90", "hello", "-----"] fuel = PyRes.spin :=
  fun fuel => rawParse3_spin "hello" rfl (fun o => ⟨o, rfl⟩) fuel

/-- C6.  The claim (and the spec scenario) says this three-line input yields
a mapping with `number_wannier_functions = 4`; because the POSTW90 loop
never advances (see C2), the call never returns a mapping at all — for
every fuel and every candidate mapping the result is not `ok`. -/
theorem C6_scenario_never_returns :
    ∀ (fuel : Nat) (m : WpOut),
      rawWpoutParse ["POSTW90", "Number of Wannier Functions : 4 x", "-----"] fuel ≠
        PyRes.ok m := by
  intro fuel m h
  rw [rawParse3_spin "Number of Wannier Functions : 4 x" rfl
    (fun o => ⟨{ o with number_wannier_functions := some 4 }, rfl⟩) fuel] at h
  exact PyRes.noConfusion h

/-- C3.  When `<seed>.werr` is absent, `<seed>.wpout` opens with content on
which `raw_wpout_parser` returns a mapping `m`, and some stdout line
contains "Exiting......", the orchestrator still publishes `m` under
`output_parameters` and then returns the exiting-message exit code: the two
conditions both propagate. -/
theorem C3_exiting_still_publishes :
    ∀ (seed : String) (hasDosInput : Bool)
      (retrieved : List (String × List String)) (fuel : Nat)
      (content : List String) (m : WpOut),
      (retrieved.map Prod.fst).contains (seed ++ ".werr") = false →
      lookupFile retrieved (seed ++ ".wpout") = some content →
      content.any (fun l => pyIn "Exiting......" l) = true →
      rawWpoutParse content fuel = PyRes.ok m →
      wannierParse seed hasDosInput retrieved fuel =
        ⟨dosOutputs seed hasDosInput retrieved ++
           [("output_parameters", OutputVal.params m)],
         POutcome.finished (some ExitErr.exitingMessageInStdout)⟩ ∧
      ("output_parameters", OutputVal.params m) ∈
        (wannierParse seed hasDosInput retrieved fuel).published := by
  intro seed hd retrieved fuel content m hw hl he hr
  have h1 : wannierParse seed hd retrieved fuel =
      ⟨dosOutputs seed hd retrieved ++
         [("output_parameters", OutputVal.params m)],
       POutcome.finished (some ExitErr.exitingMessageInStdout)⟩ := by
    unfold wannierParse
    simp only [hw, Bool.false_eq_true, if_false, hl, hr, he, if_true]
  refine ⟨h1, ?_⟩
  rw [h1]
  simp

/-- C3 witness: the theorem applied at seed "aiida" with the single
retrieved file `aiida.wpout` whose one line carries the exiting marker. -/
theorem C3_witness :
    wannierParse "aiida" false [("aiida.wpout", ["Exiting...... now"])] 3 =
      ⟨dosOutputs "aiida" false [("aiida.wpout", ["Exiting...... now"])] ++
         [("output_parameters", OutputVal.params { warnings := [] })],
       POutcome.finished (some ExitErr.exitingMessageInStdout)⟩ ∧
    ("output_parameters", OutputVal.params { warnings := [] }) ∈
      (wannierParse "aiida" false [("aiida.wpout", ["Exiting...... now"])] 3).published :=
  C3_exiting_still_publishes "aiida" false [("aiida.wpout", ["Exiting...... now"])] 3
    ["Exiting...... now"] { warnings := [] }
    (by decide) (by decide) (by decide) (by decide)

/-- C4.  Whenever `<seed>.werr` is among the retrieved file names the
orchestrator returns the werr exit code with nothing published — whatever
else was retrieved (in particular a present, well-formed `<seed>.wpout`):
the werr check is the first thing `parse` does after obtaining the folder,
before any attempt to open stdout. -/
theorem C4_werr_short_circuits :
    ∀ (seed : String) (hasDosInput : Bool)
      (retrieved : List (String × List String)) (fuel : Nat),
      (retrieved.map Prod.fst).contains (seed ++ ".werr") = true →
      wannierParse seed hasDosInput retrieved fuel =
        ⟨[], POutcome.finished (some ExitErr.werrFilePresent)⟩ := by
  intro seed hd retrieved fuel h
  unfold wannierParse
  simp only [h, if_true]

/-- C4 witness: seed "gaas" with both `gaas.werr` and a well-formed
`gaas.wpout` retrieved — outcome is the werr code, nothing published. -/
theorem C4_witness :
    wannierParse "gaas" false
        [("gaas.werr", []), ("gaas.wpout", ["-----"])] 5 =
      ⟨[], POutcome.finished (some ExitErr.werrFilePresent)⟩ :=
  C4_werr_short_circuits "gaas" false
    [("gaas.werr", []), ("gaas.wpout", ["-----"])] 5 (by decide)

/-- C5 counterexample: with seed "gaas" and retrieved set `{gaas.werr}` no
`gaas.wpout` is retrievable, yet the outcome is the werr code, not the
missing-stdout code — refuting "StdoutMissing regardless of which other
files are present". -/
theorem C5_counterexample :
    wannierParse "gaas" false [("gaas.werr", [])] 5 =
      ⟨[], POutcome.finished (some ExitErr.werrFilePresent)⟩ ∧
    ExitErr.werrFilePresent ≠ ExitErr.outputStdoutMissing :=
  ⟨by decide, by decide⟩

/-- C5 (amended).  Because the werr check runs first, the claim holds only
when `<seed>.werr` is absent: in that case, whenever `<seed>.wpout` cannot
be opened the outcome is the missing-stdout code and nothing is published,
regardless of which other files are present. -/
theorem C5_stdout_missing_amended :
    ∀ (seed : String) (hasDosInput : Bool)
      (retrieved : List (String × List String)) (fuel : Nat),
      (retrieved.map Prod.fst).contains (seed ++ ".werr") = false →
      lookupFile retrieved (seed ++ ".wpout") = none →
      wannierParse seed hasDosInput retrieved fuel =
        ⟨[], POutcome.finished (some ExitErr.outputStdoutMissing)⟩ := by
  intro seed hd retrieved fuel hw hl
  unfold wannierParse
  simp only [hw, Bool.false_eq_true, if_false, hl]

/-- C5 witness: the amended theorem at seed "gaas" with an unrelated
retrieved file only. -/
theorem C5_witness :
    wannierParse "gaas" true [("other.txt", ["data"])] 2 =
      ⟨[], POutcome.finished (some ExitErr.outputStdoutMissing)⟩ :=
  C5_stdout_missing_amended "gaas" true [("other.txt", ["data"])] 2
    (by decide) (by decide)

/-- C7.  On any input in which no line contains the substring "Warning",
whenever the parser returns a mapping its `warnings` list is empty.  (The
section-scan warning appends — non-Ang units, verbosity ≠ 1 — sit inside
the POSTW90 loop body, which never returns normally, so they cannot reach a
returned mapping.) -/
theorem C7_no_warning_lines_empty :
    ∀ (lines : List String) (fuel : Nat) (m : WpOut),
      (∀ l ∈ lines, pyIn "Warning" l = false) →
      rawWpoutParse lines fuel = PyRes.ok m → m.warnings = [] := by
  intro lines fuel m hw h
  exact rawMain_warn lines fuel hw (List.range lines.length) { warnings := [] } m h

/-- C7 witness: the theorem applied at the concrete warning-free input
`["hello"]` (whose parse returns the empty mapping). -/
theorem C7_witness :
    ({ warnings := [] } : WpOut).warnings = [] :=
  C7_no_warning_lines_empty ["hello"] 1 { warnings := [] } (by decide) (by decide)

/-- C8 counterexample to the claim as stated: in a POSTW90 section whose
Fermi line carries the textually-float token "25.5", the parser does not
truncate it to an integer — Python `int("25.5")` raises `ValueError`, so
the whole parse raises. -/
theorem C8_counterexample :
    rawWpoutParse ["POSTW90", "Fermi energy (eV) 25.5 x", "-----"] 9 =
      PyRes.exn PyErr.valueError := rfl

/-- C8 (amended).  A `Fermi energy (eV)` line in the POSTW90 scan body runs
`int()` on the second-to-last whitespace token: (1) when no other POSTW90
pattern matches the line, the body is exactly that index-then-int pipeline
into `fermi_energy`; (2) a digit-string token such as "25" parses to its
integer value; (3) a textually-float token such as "25.5" raises
`ValueError` — it is *not* truncated; (4) consequently the spec-style input
with token "25.5" makes the parse raise `ValueError` at every positive
fuel (never a truncated mapping).  Independently of (3), the missing index
increment (see C2) means a returned mapping can never carry `fermi_energy`
from a POSTW90 section at all. -/
theorem C8_fermi_amended :
    (∀ (out : WpOut) (line : String),
       pyIn "Number of Wannier Functions" line = false →
       pyIn "Number of electrons per state" line = false →
       pyIn "Fermi energy (eV)" line = true →
       pyIn "Length Unit" line = false →
       pyIn "Output verbosity (1=low, 5=high)" line = false →
       postStep out line =
         PyRes.bind (pyNeg2 (pySplit line)) (fun t =>
         PyRes.bind (pyInt t) (fun v =>
         PyRes.ok { out with fermi_energy := some v })))
    ∧ pyInt "25" = PyRes.ok 25
    ∧ pyInt "25.5" = PyRes.exn PyErr.valueError
    ∧ (∀ fuel,
        rawWpoutParse ["POSTW90", "Fermi energy (eV) 25.5 x", "-----"] (fuel + 1) =
          PyRes.exn PyErr.valueError) := by
  refine ⟨?_, rfl, rfl, ?_⟩
  · intro out line h1 h2 h3 h4 h5
    unfold postStep postNwf postNeps postFermi postLen postVerb
    simp only [h1, h2, h3, h4, h5, Bool.false_eq_true, if_false, if_true]
    cases hn : pyNeg2 (pySplit line) with
    | exn e => simp [PyRes.bind]
    | spin => simp [PyRes.bind]
    | ok t =>
      cases hi : pyInt t with
      | exn e => simp [hi, PyRes.bind]
      | spin => simp [hi, PyRes.bind]
      | ok v => simp [hi, PyRes.bind]
  · intro fuel
    show rawMain ["POSTW90", "Fermi energy (eV) 25.5 x", "-----"] (fuel + 1)
      (List.range 3) { warnings := [] } = PyRes.exn PyErr.valueError
    rw [show List.range 3 = [0, 1, 2] from rfl, rawMain]
    have ho : outerStep ["POSTW90", "Fermi energy (eV) 25.5 x", "-----"] (fuel + 1)
        { warnings := [] } 0 = PyRes.exn PyErr.valueError := by
      unfold outerStep
      simp only [show pyGet ["POSTW90", "Fermi energy (eV) 25.5 x", "-----"] 0 =
        PyRes.ok "POSTW90" from rfl]
      simp only [show pyIn "POSTW90" "POSTW90" = true from rfl, if_true]
      simp only [show pyGet ["POSTW90", "Fermi energy (eV) 25.5 x", "-----"] 1 =
        PyRes.ok "Fermi energy (eV) 25.5 x" from rfl]
      rw [postLoop_succ]
      simp only [show pyIn "-----" "Fermi energy (eV) 25.5 x" = false from rfl,
        Bool.false_eq_true, if_false]
      simp only [show pyGet ["POSTW90", "Fermi energy (eV) 25.5 x", "-----"] 1 =
        PyRes.ok "Fermi energy (eV) 25.5 x" from rfl]
      simp only [show postStep (warnCheck { warnings := [] } "POSTW90")
        "Fermi energy (eV) 25.5 x" = PyRes.exn PyErr.valueError from rfl]
    simp only [ho]

/-- C9.  The spec scenario: on `["DOS", "Grid size a b 10 c 20 d 30 e",
"-----"]` the parser returns a mapping whose `dos_kmesh` is `[10, 20, 30]`
— the integers at whitespace-split positions 4, 6 and 8 of the Grid size
line (positions 0, 2 and 4 of the `[4:-1]` slice) — for every sufficient
fuel bound. -/
theorem C9_dos_kmesh_scenario :
    ∀ fuel, rawWpoutParse ["DOS", "Grid size a b 10 c 20 d 30 e", "-----"] (fuel + 3) =
      PyRes.ok { warnings := [], dos_kmesh := some [10, 20, 30] } := by
  intro fuel
  have hd : dosLoop ["DOS", "Grid size a b 10 c 20 d 30 e", "-----"] 1
      (Sum.inl "Grid size a b 10 c 20 d 30 e") { warnings := [] } (fuel + 3) =
      PyRes.ok ({ warnings := [], dos_kmesh := some [10, 20, 30] }, 3,
        Sum.inl "-----") := by
    rw [show fuel + 3 = (fuel + 2) + 1 from rfl, dosLoop_succ]
    simp only [show dashCond (Sum.inl "Grid size a b 10 c 20 d 30 e") = false from rfl,
      Bool.false_eq_true, if_false]
    simp only [show pyGet ["DOS", "Grid size a b 10 c 20 d 30 e", "-----"] 1 =
      PyRes.ok "Grid size a b 10 c 20 d 30 e" from rfl]
    simp only [show dosStep { warnings := [] } "Grid size a b 10 c 20 d 30 e" =
      PyRes.ok ({ warnings := [], dos_kmesh := some [10, 20, 30] },
        Sum.inr ["10", "c", "20", "d", "30"]) from rfl]
    rw [show (1 : Nat) + 1 = 2 from rfl, show fuel + 2 = (fuel + 1) + 1 from rfl,
      dosLoop_succ]
    simp only [show dashCond (Sum.inr ["10", "c", "20", "d", "30"]) = false from rfl,
      Bool.false_eq_true, if_false]
    simp only [show pyGet ["DOS", "Grid size a b 10 c 20 d 30 e", "-----"] 2 =
      PyRes.ok "-----" from rfl]
    simp only [show dosStep { warnings := [], dos_kmesh := some [10, 20, 30] } "-----" =
      PyRes.ok ({ warnings := [], dos_kmesh := some [10, 20, 30] },
        Sum.inl "-----") from rfl]
    rw [dosLoop_succ]
    simp only [show dashCond (Sum.inl "-----") = true from rfl, if_true]
  show rawMain ["DOS", "Grid size a b 10 c 20 d 30 e", "-----"] (fuel + 3)
    (List.range 3) { warnings := [] } = _
  rw [show List.range 3 = [0, 1, 2] from rfl, rawMain]
  have ho : outerStep ["DOS", "Grid size a b 10 c 20 d 30 e", "-----"] (fuel + 3)
      { warnings := [] } 0 =
      PyRes.ok { warnings := [], dos_kmesh := some [10, 20, 30] } := by
    unfold outerStep
    simp only [show pyGet ["DOS", "Grid size a b 10 c 20 d 30 e", "-----"] 0 =
      PyRes.ok "DOS" from rfl]
    simp only [show pyIn "POSTW90" "DOS" = false from rfl, Bool.false_eq_true, if_false]
    simp only [show warnCheck { warnings := [] } "DOS" = { warnings := [] } from rfl]
    simp only [show pyIn "DOS" "DOS" = true from rfl, if_true]
    simp only [show pyGet ["DOS", "Grid size a b 10 c 20 d 30 e", "-----"] (0 + 1) =
      PyRes.ok "Grid size a b 10 c 20 d 30 e" from rfl]
    rw [show (0 : Nat) + 1 = 1 from rfl, hd]
  simp only [ho]
  rw [rawMain]
  have h1 : outerStep ["DOS", "Grid size a b 10 c 20 d 30 e", "-----"] (fuel + 3)
      { warnings := [], dos_kmesh := some [10, 20, 30] } 1 =
      PyRes.ok { warnings := [], dos_kmesh := some [10, 20, 30] } := rfl
  simp only [h1]
  rw [rawMain]
  have h2 : outerStep ["DOS", "Grid size a b 10 c 20 d 30 e", "-----"] (fuel + 3)
      { warnings := [], dos_kmesh := some [10, 20, 30] } 2 =
      PyRes.ok { warnings := [], dos_kmesh := some [10, 20, 30] } := rfl
  simp only [h2]
  rfl

/-- C10.  The outer pass does not skip scanned sections: *every* line
containing "DOS" triggers the dash-bounded scan from its next line, and DOS
fields written by a later scan overwrite earlier ones (last write wins).
Conjunct 1: when the dash line closing a DOS section itself contains "DOS"
(`"----- DOS -----"`), reaching it in the outer pass re-runs the scan from
the following line, so a second `Grid size` line beyond the first section
overwrites `dos_kmesh` — the result is `[7, 8, 9]`.  Conjunct 2 (control):
with a plain `"-----"` closing line nothing re-triggers and `dos_kmesh`
stays `[1, 2, 3]` from the first section.  Conjunct 3: a line inside the
section such as `"Minimum energy range for DOS plot 1.5 q"` also contains
"DOS" and re-triggers the scan (here exiting at once on the dash line),
with the parsed field intact. -/
theorem C10_dos_retrigger_last_write_wins :
    (∀ fuel, rawWpoutParse ["DOS", "Grid size a b 1 c 2 d 3 e", "----- DOS -----",
        "Grid size a b 7 c 8 d 9 e", "-----"] (fuel + 3) =
      PyRes.ok { warnings := [], dos_kmesh := some [7, 8, 9] })
    ∧ (∀ fuel, rawWpoutParse ["DOS", "Grid size a b 1 c 2 d 3 e", "-----",
        "Grid size a b 7 c 8 d 9 e", "-----"] (fuel + 3) =
      PyRes.ok { warnings := [], dos_kmesh := some [1, 2, 3] })
    ∧ (∀ fuel, rawWpoutParse ["DOS", "Minimum energy range for DOS plot 1.5 q",
        "-----"] (fuel + 3) =
      PyRes.ok { warnings := [], dos_energy_min := some "1.5" }) := by
  refine ⟨?_, ?_, ?_⟩
  · intro fuel
    have hd1 : dosLoop ["DOS", "Grid size a b 1 c 2 d 3 e", "----- DOS -----",
        "Grid size a b 7 c 8 d 9 e", "-----"] 1
        (Sum.inl "Grid size a b 1 c 2 d 3 e") { warnings := [] } (fuel + 3) =
        PyRes.ok ({ warnings := [], dos_kmesh := some [1, 2, 3] }, 3,
          Sum.inl "----- DOS -----") := by
      rw [show fuel + 3 = (fuel + 2) + 1 from rfl, dosLoop_succ]
      simp only [show dashCond (Sum.inl "Grid size a b 1 c 2 d 3 e") = false from rfl,
        Bool.false_eq_true, if_false]
      simp only [show pyGet ["DOS", "Grid size a b 1 c 2 d 3 e", "----- DOS -----",
        "Grid size a b 7 c 8 d 9 e", "-----"] 1 =
        PyRes.ok "Grid size a b 1 c 2 d 3 e" from rfl]
      simp only [show dosStep { warnings := [] } "Grid size a b 1 c 2 d 3 e" =
        PyRes.ok ({ warnings := [], dos_kmesh := some [1, 2, 3] },
          Sum.inr ["1", "c", "2", "d", "3"]) from rfl]
      rw [show (1 : Nat) + 1 = 2 from rfl, show fuel + 2 = (fuel + 1) + 1 from rfl,
        dosLoop_succ]
      simp only [show dashCond (Sum.inr ["1", "c", "2", "d", "3"]) = false from rfl,
        Bool.false_eq_true, if_false]
      simp only [show pyGet ["DOS", "Grid size a b 1 c 2 d 3 e", "----- DOS -----",
        "Grid size a b 7 c 8 d 9 e", "-----"] 2 = PyRes.ok "----- DOS -----" from rfl]
      simp only [show dosStep { warnings := [], dos_kmesh := some [1, 2, 3] }
        "----- DOS -----" =
        PyRes.ok ({ warnings := [], dos_kmesh := some [1, 2, 3] },
          Sum.inl "----- DOS -----") from rfl]
      rw [dosLoop_succ]
      simp only [show dashCond (Sum.inl "----- DOS -----") = true from rfl, if_true]
    have hd2 : dosLoop ["DOS", "Grid size a b 1 c 2 d 3 e", "----- DOS -----",
        "Grid size a b 7 c 8 d 9 e", "-----"] 3
        (Sum.inl "Grid size a b 7 c 8 d 9 e")
        { warnings := [], dos_kmesh := some [1, 2, 3] } (fuel + 3) =
        PyRes.ok ({ warnings := [], dos_kmesh := some [7, 8, 9] }, 5,
          Sum.inl "-----") := by
      rw [show fuel + 3 = (fuel + 2) + 1 from rfl, dosLoop_succ]
      simp only [show dashCond (Sum.inl "Grid size a b 7 c 8 d 9 e") = false from rfl,
        Bool.false_eq_true, if_false]
      simp only [show pyGet ["DOS", "Grid size a b 1 c 2 d 3 e", "----- DOS -----",
        "Grid size a b 7 c 8 d 9 e", "-----"] 3 =
        PyRes.ok "Grid size a b 7 c 8 d 9 e" from rfl]
      simp only [show dosStep { warnings := [], dos_kmesh := some [1, 2, 3] }
        "Grid size a b 7 c 8 d 9 e" =
        PyRes.ok ({ warnings := [], dos_kmesh := some [7, 8, 9] },
          Sum.inr ["7", "c", "8", "d", "9"]) from rfl]
      rw [show (3 : Nat) + 1 = 4 from rfl, show fuel + 2 = (fuel + 1) + 1 from rfl,
        dosLoop_succ]
      simp only [show dashCond (Sum.inr ["7", "c", "8", "d", "9"]) = false from rfl,
        Bool.false_eq_true, if_false]
      simp only [show pyGet ["DOS", "Grid size a b 1 c 2 d 3 e", "----- DOS -----",
        "Grid size a b 7 c 8 d 9 e", "-----"] 4 = PyRes.ok "-----" from rfl]
      simp only [show dosStep { warnings := [], dos_kmesh := some [7, 8, 9] } "-----" =
        PyRes.ok ({ warnings := [], dos_kmesh := some [7, 8, 9] },
          Sum.inl "-----") from rfl]
      rw [dosLoop_succ]
      simp only [show dashCond (Sum.inl "-----") = true from rfl, if_true]
    show rawMain ["DOS", "Grid size a b 1 c 2 d 3 e", "----- DOS -----",
      "Grid size a b 7 c 8 d 9 e", "-----"] (fuel + 3)
      (List.range 5) { warnings := [] } = _
    rw [show List.range 5 = [0, 1, 2, 3, 4] from rfl, rawMain]
    have ho0 : outerStep ["DOS", "Grid size a b 1 c 2 d 3 e", "----- DOS -----",
        "Grid size a b 7 c 8 d 9 e", "-----"] (fuel + 3) { warnings := [] } 0 =
        PyRes.ok { warnings := [], dos_kmesh := some [1, 2, 3] } := by
      unfold outerStep
      simp only [show pyGet ["DOS", "Grid size a b 1 c 2 d 3 e", "----- DOS -----",
        "Grid size a b 7 c 8 d 9 e", "-----"] 0 = PyRes.ok "DOS" from rfl]
      simp only [show pyIn "POSTW90" "DOS" = false from rfl, Bool.false_eq_true,
        if_false]
      simp only [show warnCheck { warnings := [] } "DOS" = { warnings := [] } from rfl]
      simp only [show pyIn "DOS" "DOS" = true from rfl, if_true]
      simp only [show pyGet ["DOS", "Grid size a b 1 c 2 d 3 e", "----- DOS -----",
        "Grid size a b 7 c 8 d 9 e", "-----"] (0 + 1) =
        PyRes.ok "Grid size a b 1 c 2 d 3 e" from rfl]
      rw [show (0 : Nat) + 1 = 1 from rfl, hd1]
    simp only [ho0]
    rw [rawMain]
    have ho1 : outerStep ["DOS", "Grid size a b 1 c 2 d 3 e", "----- DOS -----",
        "Grid size a b 7 c 8 d 9 e", "-----"] (fuel + 3)
        { warnings := [], dos_kmesh := some [1, 2, 3] } 1 =
        PyRes.ok { warnings := [], dos_kmesh := some [1, 2, 3] } := rfl
    simp only [ho1]
    rw [rawMain]
    have ho2 : outerStep ["DOS", "Grid size a b 1 c 2 d 3 e", "----- DOS -----",
        "Grid size a b 7 c 8 d 9 e", "-----"] (fuel + 3)
        { warnings := [], dos_kmesh := some [1, 2, 3] } 2 =
        PyRes.ok { warnings := [], dos_kmesh := some [7, 8, 9] } := by
      unfold outerStep
      simp only [show pyGet ["DOS", "Grid size a b 1 c 2 d 3 e", "----- DOS -----",
        "Grid size a b 7 c 8 d 9 e", "-----"] 2 = PyRes.ok "----- DOS -----" from rfl]
      simp only [show pyIn "POSTW90" "----- DOS -----" = false from rfl,
        Bool.false_eq_true, if_false]
      simp only [show warnCheck { warnings := [], dos_kmesh := some [1, 2, 3] }
        "----- DOS -----" = { warnings := [], dos_kmesh := some [1, 2, 3] } from rfl]
      simp only [show pyIn "DOS" "----- DOS -----" = true from rfl, if_true]
      simp only [show pyGet ["DOS", "Grid size a b 1 c 2 d 3 e", "----- DOS -----",
        "Grid size a b 7 c 8 d 9 e", "-----"] (2 + 1) =
        PyRes.ok "Grid size a b 7 c 8 d 9 e" from rfl]
      rw [show (2 : Nat) + 1 = 3 from rfl, hd2]
    simp only [ho2]
    rw [rawMain]
    have ho3 : outerStep ["DOS", "Grid size a b 1 c 2 d 3 e", "----- DOS -----",
        "Grid size a b 7 c 8 d 9 e", "-----"] (fuel + 3)
        { warnings := [], dos_kmesh := some [7, 8, 9] } 3 =
        PyRes.ok { warnings := [], dos_kmesh := some [7, 8, 9] } := rfl
    simp only [ho3]
    rw [rawMain]
    have ho4 : outerStep ["DOS", "Grid size a b 1 c 2 d 3 e", "----- DOS -----",
        "Grid size a b 7 c 8 d 9 e", "-----"] (fuel + 3)
        { warnings := [], dos_kmesh := some [7, 8, 9] } 4 =
        PyRes.ok { warnings := [], dos_kmesh := some [7, 8, 9] } := rfl
    simp only [ho4]
    rfl
  · intro fuel
    have hd1 : dosLoop ["DOS", "Grid size a b 1 c 2 d 3 e", "-----",
        "Grid size a b 7 c 8 d 9 e", "-----"] 1
        (Sum.inl "Grid size a b 1 c 2 d 3 e") { warnings := [] } (fuel + 3) =
        PyRes.ok ({ warnings := [], dos_kmesh := some [1, 2, 3] }, 3,
          Sum.inl "-----") := by
      rw [show fuel + 3 = (fuel + 2) + 1 from rfl, dosLoop_succ]
      simp only [show dashCond (Sum.inl "Grid size a b 1 c 2 d 3 e") = false from rfl,
        Bool.false_eq_true, if_false]
      simp only [show pyGet ["DOS", "Grid size a b 1 c 2 d 3 e", "-----",
        "Grid size a b 7 c 8 d 9 e", "-----"] 1 =
        PyRes.ok "Grid size a b 1 c 2 d 3 e" from rfl]
      simp only [show dosStep { warnings := [] } "Grid size a b 1 c 2 d 3 e" =
        PyRes.ok ({ warnings := [], dos_kmesh := some [1, 2, 3] },
          Sum.inr ["1", "c", "2", "d", "3"]) from rfl]
      rw [show (1 : Nat) + 1 = 2 from rfl, show fuel + 2 = (fuel + 1) + 1 from rfl,
        dosLoop_succ]
      simp only [show dashCond (Sum.inr ["1", "c", "2", "d", "3"]) = false from rfl,
        Bool.false_eq_true, if_false]
      simp only [show pyGet ["DOS", "Grid size a b 1 c 2 d 3 e", "-----",
        "Grid size a b 7 c 8 d 9 e", "-----"] 2 = PyRes.ok "-----" from rfl]
      simp only [show dosStep { warnings := [], dos_kmesh := some [1, 2, 3] } "-----" =
        PyRes.ok ({ warnings := [], dos_kmesh := some [1, 2, 3] },
          Sum.inl "-----") from rfl]
      rw [dosLoop_succ]
      simp only [show dashCond (Sum.inl "-----") = true from rfl, if_true]
    show rawMain ["DOS", "Grid size a b 1 c 2 d 3 e", "-----",
      "Grid size a b 7 c 8 d 9 e", "-----"] (fuel + 3)
      (List.range 5) { warnings := [] } = _
    rw [show List.range 5 = [0, 1, 2, 3, 4] from rfl, rawMain]
    have ho0 : outerStep ["DOS", "Grid size a b 1 c 2 d 3 e", "-----",
        "Grid size a b 7 c 8 d 9 e", "-----"] (fuel + 3) { warnings := [] } 0 =
        PyRes.ok { warnings := [], dos_kmesh := some [1, 2, 3] } := by
      unfold outerStep
      simp only [show pyGet ["DOS", "Grid size a b 1 c 2 d 3 e", "-----",
        "Grid size a b 7 c 8 d 9 e", "-----"] 0 = PyRes.ok "DOS" from rfl]
      simp only [show pyIn "POSTW90" "DOS" = false from rfl, Bool.false_eq_true,
        if_false]
      simp only [show warnCheck { warnings := [] } "DOS" = { warnings := [] } from rfl]
      simp only [show pyIn "DOS" "DOS" = true from rfl, if_true]
      simp only [show pyGet ["DOS", "Grid size a b 1 c 2 d 3 e", "-----",
        "Grid size a b 7 c 8 d 9 e", "-----"] (0 + 1) =
        PyRes.ok "Grid size a b 1 c 2 d 3 e" from rfl]
      rw [show (0 : Nat) + 1 = 1 from rfl, hd1]
    simp only [ho0]
    rw [rawMain]
    have ho1 : outerStep ["DOS", "Grid size a b 1 c 2 d 3 e", "-----",
        "Grid size a b 7 c 8 d 9 e", "-----"] (fuel + 3)
        { warnings := [], dos_kmesh := some [1, 2, 3] } 1 =
        PyRes.ok { warnings := [], dos_kmesh := some [1, 2, 3] } := rfl
    simp only [ho1]
    rw [rawMain]
    have ho2 : outerStep ["DOS", "Grid size a b 1 c 2 d 3 e", "-----",
        "Grid size a b 7 c 8 d 9 e", "-----"] (fuel + 3)
        { warnings := [], dos_kmesh := some [1, 2, 3] } 2 =
        PyRes.ok { warnings := [], dos_kmesh := some [1, 2, 3] } := rfl
    simp only [ho2]
    rw [rawMain]
    have ho3 : outerStep ["DOS", "Grid size a b 1 c 2 d 3 e", "-----",
        "Grid size a b 7 c 8 d 9 e", "-----"] (fuel + 3)
        { warnings := [], dos_kmesh := some [1, 2, 3] } 3 =
        PyRes.ok { warnings := [], dos_kmesh := some [1, 2, 3] } := rfl
    simp only [ho3]
    rw [rawMain]
    have ho4 : outerStep ["DOS", "Grid size a b 1 c 2 d 3 e", "-----",
        "Grid size a b 7 c 8 d 9 e", "-----"] (fuel + 3)
        { warnings := [], dos_kmesh := some [1, 2, 3] } 4 =
        PyRes.ok { warnings := [], dos_kmesh := some [1, 2, 3] } := rfl
    simp only [ho4]
    rfl
  · intro fuel
    have hd1 : dosLoop ["DOS", "Minimum energy range for DOS plot 1.5 q", "-----"] 1
        (Sum.inl "Minimum energy range for DOS plot 1.5 q") { warnings := [] }
        (fuel + 3) =
        PyRes.ok ({ warnings := [], dos_energy_min := some "1.5" }, 3,
          Sum.inl "-----") := by
      rw [show fuel + 3 = (fuel + 2) + 1 from rfl, dosLoop_succ]
      simp only [show dashCond (Sum.inl "Minimum energy range for DOS plot 1.5 q") =
        false from rfl, Bool.false_eq_true, if_false]
      simp only [show pyGet ["DOS", "Minimum energy range for DOS plot 1.5 q",
        "-----"] 1 = PyRes.ok "Minimum energy range for DOS plot 1.5 q" from rfl]
      simp only [show dosStep { warnings := [] }
        "Minimum energy range for DOS plot 1.5 q" =
        PyRes.ok ({ warnings := [], dos_energy_min := some "1.5" },
          Sum.inl "Minimum energy range for DOS plot 1.5 q") from rfl]
      rw [show (1 : Nat) + 1 = 2 from rfl, show fuel + 2 = (fuel + 1) + 1 from rfl,
        dosLoop_succ]
      simp only [show dashCond (Sum.inl "Minimum energy range for DOS plot 1.5 q") =
        false from rfl, Bool.false_eq_true, if_false]
      simp only [show pyGet ["DOS", "Minimum energy range for DOS plot 1.5 q",
        "-----"] 2 = PyRes.ok "-----" from rfl]
      simp only [show dosStep { warnings := [], dos_energy_min := some "1.5" }
        "-----" =
        PyRes.ok ({ warnings := [], dos_energy_min := some "1.5" },
          Sum.inl "-----") from rfl]
      rw [dosLoop_succ]
      simp only [show dashCond (Sum.inl "-----") = true from rfl, if_true]
    show rawMain ["DOS", "Minimum energy range for DOS plot 1.5 q", "-----"]
      (fuel + 3) (List.range 3) { warnings := [] } = _
    rw [show List.range 3 = [0, 1, 2] from rfl, rawMain]
    have ho0 : outerStep ["DOS", "Minimum energy range for DOS plot 1.5 q", "-----"]
        (fuel + 3) { warnings := [] } 0 =
        PyRes.ok { warnings := [], dos_energy_min := some "1.5" } := by
      unfold outerStep
      simp only [show pyGet ["DOS", "Minimum energy range for DOS plot 1.5 q",
        "-----"] 0 = PyRes.ok "DOS" from rfl]
      simp only [show pyIn "POSTW90" "DOS" = false from rfl, Bool.false_eq_true,
        if_false]
      simp only [show warnCheck { warnings := [] } "DOS" = { warnings := [] } from rfl]
      simp only [show pyIn "DOS" "DOS" = true from rfl, if_true]
      simp only [show pyGet ["DOS", "Minimum energy range for DOS plot 1.5 q",
        "-----"] (0 + 1) =
        PyRes.ok "Minimum energy range for DOS plot 1.5 q" from rfl]
      rw [show (0 : Nat) + 1 = 1 from rfl, hd1]
    simp only [ho0]
    rw [rawMain]
    have ho1 : outerStep ["DOS", "Minimum energy range for DOS plot 1.5 q", "-----"]
        (fuel + 3) { warnings := [], dos_energy_min := some "1.5" } 1 =
        PyRes.ok { warnings := [], dos_energy_min := some "1.5" } := by
      unfold outerStep
      simp only [show pyGet ["DOS", "Minimum energy range for DOS plot 1.5 q",
        "-----"] 1 = PyRes.ok "Minimum energy range for DOS plot 1.5 q" from rfl]
      simp only [show pyIn "POSTW90" "Minimum energy range for DOS plot 1.5 q" =
        false from rfl, Bool.false_eq_true, if_false]
      simp only [show warnCheck { warnings := [], dos_energy_min := some "1.5" }
        "Minimum energy range for DOS plot 1.5 q" =
        { warnings := [], dos_energy_min := some "1.5" } from rfl]
      simp only [show pyIn "DOS" "Minimum energy range for DOS plot 1.5 q" =
        true from rfl, if_true]
      simp only [show pyGet ["DOS", "Minimum energy range for DOS plot 1.5 q",
        "-----"] (1 + 1) = PyRes.ok "-----" from rfl]
      rw [show (1 : Nat) + 1 = 2 from rfl, show fuel + 3 = (fuel + 2) + 1 from rfl,
        dosLoop_succ]
      simp only [show dashCond (Sum.inl "-----") = true from rfl, if_true]
    simp only [ho1]
    rw [rawMain]
    have ho2 : outerStep ["DOS", "Minimum energy range for DOS plot 1.5 q", "-----"]
        (fuel + 3) { warnings := [], dos_energy_min := some "1.5" } 2 =
        PyRes.ok { warnings := [], dos_energy_min := some "1.5" } := rfl
    simp only [ho2]
    rfl
